import Mathlib

/-!
Shallow embedding of `src/game.js` (Dodge the Blocks).

Numbers are modelled as rationals (`ℚ`): JavaScript arithmetic in this game
is plain +, *, comparison and `Math.floor`, all exact on the values involved.
`Math.random()` results are modelled as explicit rational parameters in
`[0,1)` (a `RandSrc` record: one draw per call site of `rand` / `Math.random`
inside `spawnBlock`).  The canvas dimensions `canvas.width` / `canvas.height`
come from the HTML page, not from `src/game.js`; they are parameters `W`, `H`.
-/

namespace DodgeTheBlocks

/-- `function clamp(v, a, b) { return Math.max(a, Math.min(b, v)); }` -/
def clamp (v a b : ℚ) : ℚ := max a (min b v)

/-- `function rand(min, max) { return Math.random() * (max - min) + min; }`
with the `Math.random()` draw `r` made explicit. -/
def rand (r lo hi : ℚ) : ℚ := r * (hi - lo) + lo

/-- Block shape tag: `'rect'` or `'circle'`. -/
inductive Shape where
  | rect : Shape
  | circle : Shape
deriving DecidableEq

/-- A falling block: `{ x, y, w, h, speed, shape }`. -/
structure Block where
  x : ℚ
  y : ℚ
  w : ℚ
  h : ℚ
  speed : ℚ
  shape : Shape
deriving DecidableEq

/-- The player record (fields of the `player` object in `src/game.js`). -/
structure Player where
  w : ℚ
  h : ℚ
  x : ℚ
  y : ℚ
  speed : ℚ
  vx : ℚ
deriving DecidableEq

/-- Input state: `const keys = { left: false, right: false }`. -/
structure Keys where
  left : Bool
  right : Bool
deriving DecidableEq

/-- An axis-aligned rectangle `(x, y, w, h)` as read by `checkCollision`. -/
structure Rect where
  x : ℚ
  y : ℚ
  w : ℚ
  h : ℚ
deriving DecidableEq

/-- The rectangle of a player. -/
def Player.rect (p : Player) : Rect := ⟨p.x, p.y, p.w, p.h⟩

/-- The rectangle of a block. -/
def Block.rect (b : Block) : Rect := ⟨b.x, b.y, b.w, b.h⟩

/-- `function checkCollision(a, b) { return a.x < b.x + b.w && a.x + a.w > b.x
&& a.y < b.y + b.h && a.y + a.h > b.y; }` -/
def checkCollision (a b : Rect) : Bool :=
  decide (a.x < b.x + b.w) && decide (a.x + a.w > b.x) &&
  decide (a.y < b.y + b.h) && decide (a.y + a.h > b.y)

/-- The mutable module-level game state of `src/game.js`
(`running`, `elapsed`, `spawnTimer`, `spawnInterval`, `blocks`, `player`,
`keys`).  `lastTime` lives in `LoopState` below. -/
structure GameState where
  running : Bool
  elapsed : ℚ
  spawnTimer : ℚ
  spawnInterval : ℚ
  blocks : List Block
  player : Player
  keys : Keys
deriving DecidableEq

/-- One `Math.random()` draw per call site inside `spawnBlock`:
`r1` for the width, `r2` for the x position, `r3` for the speed jitter,
`r4` for the shape coin flip. -/
structure RandSrc where
  r1 : ℚ
  r2 : ℚ
  r3 : ℚ
  r4 : ℚ
deriving DecidableEq

/-- The block built by `spawnBlock()`:
`bw = Math.floor(rand(30, 70))`, `bx = Math.floor(rand(0, canvas.width - bw))`,
`speedBase = 120 + elapsed * 20`,
`b = { x: bx, y: -bw, w: bw, h: bw, speed: speedBase + rand(0, 60) }`,
`b.shape = Math.random() < 0.5 ? 'rect' : 'circle'`. -/
def newBlock (W elapsed : ℚ) (ρ : RandSrc) : Block :=
  let bw : ℚ := (⌊rand ρ.r1 30 70⌋ : ℤ)
  let bx : ℚ := (⌊rand ρ.r2 0 (W - bw)⌋ : ℤ)
  let speedBase := 120 + elapsed * 20
  { x := bx, y := -bw, w := bw, h := bw,
    speed := speedBase + rand ρ.r3 0 60,
    shape := if ρ.r4 < 1/2 then Shape.rect else Shape.circle }

/-- `spawnBlock()` as a transformer of the `blocks` array: it ends with
`blocks.push(b)`, i.e. appends the new block. -/
def spawnBlock (W elapsed : ℚ) (ρ : RandSrc) (blocks : List Block) : List Block :=
  blocks ++ [newBlock W elapsed ρ]

/-- The value `spawnInterval` is reassigned to at the start of `update(dt)`:
`spawnInterval = clamp(0.9 - elapsed * 0.02, 0.28, 0.9)` with the already
incremented `elapsed`. -/
def newSpawnInterval (dt : ℚ) (s : GameState) : ℚ :=
  clamp (9/10 - (s.elapsed + dt) * (2/100)) (28/100) (9/10)

/-- The player after the movement step of `update(dt)`:
`dir = (keys.right ? 1 : 0) - (keys.left ? 1 : 0)`,
`player.x += dir * player.speed * dt`,
`player.x = clamp(player.x, 0, canvas.width - player.w)`. -/
def updatedPlayer (W dt : ℚ) (s : GameState) : Player :=
  let dir : ℚ := (if s.keys.right then 1 else 0) - (if s.keys.left then 1 else 0)
  { s.player with x := clamp (s.player.x + dir * s.player.speed * dt) 0 (W - s.player.w) }

/-- The `blocks` array as it enters the for-loop of `update(dt)`:
`spawnTimer += dt; if (spawnTimer >= spawnInterval) { spawnBlock(); spawnTimer = 0; }`
— the spawned block (if any) is already in the array before the loop runs. -/
def blocksEnteringLoop (W : ℚ) (ρ : RandSrc) (dt : ℚ) (s : GameState) : List Block :=
  if s.spawnTimer + dt ≥ newSpawnInterval dt s then
    spawnBlock W (s.elapsed + dt) ρ s.blocks
  else s.blocks

/-- One block after `b.y += b.speed * dt`. -/
def moveBlock (dt : ℚ) (b : Block) : Block := { b with y := b.y + b.speed * dt }

/-- The for-loop
`for (let i = blocks.length - 1; i >= 0; i--) { const b = blocks[i];
b.y += b.speed * dt; if (b.y > canvas.height) blocks.splice(i, 1);
else if (checkCollision(player, b)) endGame(); }`.
The loop walks indices from the last down to 0; a `splice(i, 1)` removes
exactly the element just processed and leaves lower indices untouched, so
the iteration is modelled by a recursion in which the head of the list is
processed after the tail.  The returned boolean records whether `endGame()`
was called during the loop. -/
def blockLoop (H : ℚ) (p : Rect) (dt : ℚ) : List Block → List Block × Bool
  | [] => ([], false)
  | b :: rest =>
    let tail := blockLoop H p dt rest
    let b' := moveBlock dt b
    if b'.y > H then tail
    else (b' :: tail.1, tail.2 || checkCollision p b'.rect)

/-- `function update(dt)` of `src/game.js`, in source order:
`elapsed += dt`; recompute `spawnInterval`; move and clamp the player;
`spawnTimer += dt` with at most one spawn; then the block loop, whose
`endGame()` sets `running = false`. -/
def update (W H : ℚ) (ρ : RandSrc) (dt : ℚ) (s : GameState) : GameState :=
  let res := blockLoop H (updatedPlayer W dt s).rect dt (blocksEnteringLoop W ρ dt s)
  { running := if res.2 then false else s.running
    elapsed := s.elapsed + dt
    spawnTimer := if s.spawnTimer + dt ≥ newSpawnInterval dt s then 0 else s.spawnTimer + dt
    spawnInterval := newSpawnInterval dt s
    blocks := res.1
    player := updatedPlayer W dt s
    keys := s.keys }

/-- `function resetGame()`: `running = false; lastTime = 0; elapsed = 0;
spawnTimer = 0; spawnInterval = 0.9; blocks.length = 0;
player.x = canvas.width / 2 - player.w / 2;
player.y = canvas.height - player.h - 20;
keys.left = keys.right = false; updateScoreDisplay(0);` (the score display
is an external sink). -/
def resetGame (W H : ℚ) (s : GameState) : GameState :=
  { running := false
    elapsed := 0
    spawnTimer := 0
    spawnInterval := 9/10
    blocks := []
    player := { s.player with x := W / 2 - s.player.w / 2, y := H - s.player.h - 20 }
    keys := { left := false, right := false } }

/-- `function endGame() { running = false; }` -/
def endGame (s : GameState) : GameState := { s with running := false }

/-- Game state plus the `lastTime` module variable used by `loop`. -/
structure LoopState where
  game : GameState
  lastTime : ℚ
deriving DecidableEq

/-- `function loop(now)`: `if (!running) return;` then
`dt = (now - lastTime) / 1000; lastTime = now; update(dt); draw();
updateScoreDisplay(elapsed); requestAnimationFrame(loop);`.
`draw` and the score display do not touch game state.  The returned boolean
records whether `requestAnimationFrame(loop)` was called again. -/
def loop (W H : ℚ) (ρ : RandSrc) (now : ℚ) (s : LoopState) : LoopState × Bool :=
  if s.game.running = false then (s, false)
  else
    let dt := (now - s.lastTime) / 1000
    ({ game := update W H ρ dt s.game, lastTime := now }, true)

/-! ### Sample concrete values used by witnesses -/

/-- A player with the source's fixed size and speed, at x = 100. -/
def samplePlayer : Player :=
  { w := 28, h := 18, x := 100, y := 502, speed := 280, vx := 0 }

/-- A running state with no blocks. -/
def sampleState : GameState :=
  { running := true, elapsed := 0, spawnTimer := 0, spawnInterval := 9/10,
    blocks := [], player := samplePlayer, keys := { left := false, right := false } }

/-- A block directly under the sample player. -/
def sampleBlock : Block :=
  { x := 100, y := 500, w := 40, h := 40, speed := 100, shape := Shape.rect }

/-- The sample state with the sample block active. -/
def sampleCollisionState : GameState := { sampleState with blocks := [sampleBlock] }

/-- All four random draws fixed to 0. -/
def sampleRand : RandSrc := ⟨0, 0, 0, 0⟩

/-! ### Characterization of the block loop -/

/-- The reverse-index splice loop moves every block and keeps exactly the
moved blocks with `y ≤ H`, in order; `endGame()` fires iff some kept moved
block collides with the player. -/
theorem blockLoop_eq (H : ℚ) (p : Rect) (dt : ℚ) (bs : List Block) :
    blockLoop H p dt bs =
      ((bs.map (moveBlock dt)).filter (fun b => decide (b.y ≤ H)),
       (bs.map (moveBlock dt)).any
         (fun b => decide (b.y ≤ H) && checkCollision p b.rect)) := by
  induction bs with
  | nil => rfl
  | cons b rest ih =>
    by_cases h : (moveBlock dt b).y > H
    · have hd : (decide ((moveBlock dt b).y ≤ H)) = false := by
        simp [not_le.mpr h]
      simp [blockLoop, ih, hd, h]
    · have hd : (decide ((moveBlock dt b).y ≤ H)) = true := by
        simp [not_lt.mp h]
      simp [blockLoop, ih, hd, h, Bool.or_comm]

/-- `checkCollision` unfolded to its four strict comparisons. -/
theorem checkCollision_iff (a b : Rect) :
    checkCollision a b = true ↔
      a.x < b.x + b.w ∧ a.x + a.w > b.x ∧ a.y < b.y + b.h ∧ a.y + a.h > b.y := by
  simp [checkCollision, and_assoc]

/-! ### Claims -/

/-- C1: for every `dt ≥ 0`, every input-flag combination and every starting
player position, after `update(dt)` the player's x coordinate satisfies
`0 ≤ player.x ≤ playfieldWidth - player.w` (the clamp is applied after the
move); the playfield must be at least as wide as the player for the stated
interval to be nonempty. -/
theorem C1_player_x_clamped (W H : ℚ) (ρ : RandSrc) (dt : ℚ) (s : GameState)
    (_hdt : 0 ≤ dt) (hW : s.player.w ≤ W) :
    0 ≤ (update W H ρ dt s).player.x ∧
    (update W H ρ dt s).player.x ≤ W - (update W H ρ dt s).player.w := by
  have hx : (update W H ρ dt s).player.x
      = clamp (s.player.x + ((if s.keys.right then (1:ℚ) else 0) -
          (if s.keys.left then (1:ℚ) else 0)) * s.player.speed * dt)
          0 (W - s.player.w) := rfl
  have hw : (update W H ρ dt s).player.w = s.player.w := rfl
  rw [hx, hw]
  unfold clamp
  exact ⟨le_max_left _ _, max_le (by linarith) (min_le_left _ _)⟩

/-- Witness for C1 at `W = 400`, `dt = 1`, the sample state. -/
theorem C1_player_x_clamped_witness :
    0 ≤ (update 400 600 sampleRand 1 sampleState).player.x ∧
    (update 400 600 sampleRand 1 sampleState).player.x
      ≤ 400 - (update 400 600 sampleRand 1 sampleState).player.w :=
  C1_player_x_clamped 400 600 sampleRand 1 sampleState (by norm_num)
    (by norm_num [sampleState, samplePlayer])

/-- C7: `resetGame` is idempotent, and the state it produces has
`running = false`, `elapsed = 0`, `spawnTimer = 0`, `spawnInterval = 0.9`,
no blocks, the player horizontally centered at the fixed vertical offset,
and both input flags cleared. -/
theorem C7_reset_idempotent (W H : ℚ) (s : GameState) :
    resetGame W H (resetGame W H s) = resetGame W H s ∧
    (resetGame W H s).running = false ∧
    (resetGame W H s).elapsed = 0 ∧
    (resetGame W H s).spawnTimer = 0 ∧
    (resetGame W H s).spawnInterval = 9/10 ∧
    (resetGame W H s).blocks = [] ∧
    (resetGame W H s).player.x = W / 2 - s.player.w / 2 ∧
    (resetGame W H s).player.y = H - s.player.h - 20 ∧
    (resetGame W H s).keys.left = false ∧
    (resetGame W H s).keys.right = false :=
  ⟨rfl, rfl, rfl, rfl, rfl, rfl, rfl, rfl, rfl, rfl⟩

/-- C8: once `running = false`, a frame-callback invocation leaves the whole
state (game state and `lastTime`) unchanged and does not reschedule another
frame. -/
theorem C8_frozen_after_end (W H : ℚ) (ρ : RandSrc) (now : ℚ) (s : LoopState)
    (h : s.game.running = false) :
    loop W H ρ now s = (s, false) := by
  simp [loop, h]

/-- Witness for C8 at a concrete ended state. -/
theorem C8_frozen_after_end_witness :
    loop 400 600 sampleRand 16 ⟨{ sampleState with running := false }, 0⟩
      = (⟨{ sampleState with running := false }, 0⟩, false) :=
  C8_frozen_after_end 400 600 sampleRand 16 _ rfl

/-- C9: after any `update(dt)` call, `spawnTimer < spawnInterval` (a spawn
resets the timer to 0, below the 0.28 floor; otherwise the timer stayed
strictly below the interval), so `spawnTimer < 0.9`.  This holds for every
state, in particular for every state reachable from `resetGame`. -/
theorem C9_spawnTimer_lt_interval (W H : ℚ) (ρ : RandSrc) (dt : ℚ) (s : GameState) :
    (update W H ρ dt s).spawnTimer < (update W H ρ dt s).spawnInterval ∧
    (update W H ρ dt s).spawnTimer < 9/10 := by
  have hst : (update W H ρ dt s).spawnTimer
      = if s.spawnTimer + dt ≥ newSpawnInterval dt s then 0 else s.spawnTimer + dt := rfl
  have hsi : (update W H ρ dt s).spawnInterval = newSpawnInterval dt s := rfl
  have hlo : (28:ℚ)/100 ≤ newSpawnInterval dt s := le_max_left _ _
  have hhi : newSpawnInterval dt s ≤ 9/10 :=
    max_le (by norm_num) (min_le_left _ _)
  rw [hst, hsi]
  by_cases h : s.spawnTimer + dt ≥ newSpawnInterval dt s
  · rw [if_pos h]
    exact ⟨by linarith, by linarith⟩
  · rw [if_neg h]
    push_neg at h
    exact ⟨h, by linarith⟩

/-- C10 counterexample: a zero-width rectangle that `checkCollision` reports
as overlapping another rectangle, so "a degenerate rectangle overlaps
nothing" is false as stated. -/
theorem C10_degenerate_counterexample :
    checkCollision ⟨5, 0, 0, 5⟩ ⟨0, 0, 10, 5⟩ = true := by
  norm_num [checkCollision]

/-- C10 (amended): `checkCollision a a = false` whenever `a` has zero width
or zero height — a degenerate rectangle does not overlap an identical copy
of itself, so the identical-rectangles property needs positive dimensions. -/
theorem C10_degenerate_self (a : Rect) (h : a.w = 0 ∨ a.h = 0) :
    checkCollision a a = false := by
  cases hcb : checkCollision a a
  · rfl
  · exfalso
    rcases (checkCollision_iff a a).mp hcb with ⟨h1, h2, h3, h4⟩
    rcases h with h | h <;> linarith

/-- Witness for the amended C10 at a zero-width rectangle. -/
theorem C10_degenerate_self_witness :
    checkCollision ⟨0, 0, 0, 5⟩ ⟨0, 0, 0, 5⟩ = false :=
  C10_degenerate_self ⟨0, 0, 0, 5⟩ (Or.inl rfl)

/-- C5 counterexample: two identical degenerate rectangles for which
`checkCollision` returns `false`, so "returns true for two identical
rectangles" fails without a positivity precondition. -/
theorem C5_identical_counterexample :
    checkCollision ⟨0, 0, 0, 0⟩ ⟨0, 0, 0, 0⟩ = false := by
  norm_num [checkCollision]

/-- C5 (amended): `checkCollision` is symmetric; it returns `true` on two
identical rectangles of strictly positive width and height; and it returns
`false` for rectangles separated by a gap on the x axis or on the y axis. -/
theorem C5_symm_identical_gap (a b : Rect) :
    checkCollision a b = checkCollision b a ∧
    (0 < a.w → 0 < a.h → checkCollision a a = true) ∧
    ((a.x + a.w < b.x ∨ b.x + b.w < a.x ∨ a.y + a.h < b.y ∨ b.y + b.h < a.y) →
      checkCollision a b = false) := by
  refine ⟨?_, ?_, ?_⟩
  · rw [Bool.eq_iff_iff, checkCollision_iff, checkCollision_iff]
    constructor <;> rintro ⟨h1, h2, h3, h4⟩ <;> exact ⟨h2, h1, h4, h3⟩
  · intro hw hh
    exact (checkCollision_iff a a).mpr ⟨by linarith, by linarith, by linarith, by linarith⟩
  · intro hgap
    cases hcb : checkCollision a b
    · rfl
    · exfalso
      rcases (checkCollision_iff a b).mp hcb with ⟨h1, h2, h3, h4⟩
      rcases hgap with h | h | h | h <;> linarith

/-- Witness for the amended C5: identical positive rectangles overlap and
x-gapped rectangles do not. -/
theorem C5_symm_identical_gap_witness :
    checkCollision ⟨0, 0, 28, 18⟩ ⟨0, 0, 28, 18⟩ = true ∧
    checkCollision ⟨0, 0, 28, 18⟩ ⟨100, 0, 28, 18⟩ = false :=
  ⟨(C5_symm_identical_gap ⟨0, 0, 28, 18⟩ ⟨0, 0, 28, 18⟩).2.1 (by norm_num) (by norm_num),
   (C5_symm_identical_gap ⟨0, 0, 28, 18⟩ ⟨100, 0, 28, 18⟩).2.2 (Or.inl (by norm_num))⟩

/-- C2: the spawn interval recomputed by `update` equals
`clamp(0.9 - elapsed*0.02, 0.28, 0.9)` at the new elapsed time; for every
new elapsed `≥ 0` it lies in `[0.28, 0.9]`; it is `0.9` at elapsed `= 0`
and `0.28` for every elapsed `≥ 31`. -/
theorem C2_spawnInterval_formula (W H : ℚ) (ρ : RandSrc) (dt : ℚ) (s : GameState) :
    (update W H ρ dt s).spawnInterval
      = clamp (9/10 - (s.elapsed + dt) * (2/100)) (28/100) (9/10) ∧
    (0 ≤ s.elapsed + dt →
      28/100 ≤ (update W H ρ dt s).spawnInterval ∧
      (update W H ρ dt s).spawnInterval ≤ 9/10) ∧
    (s.elapsed + dt = 0 → (update W H ρ dt s).spawnInterval = 9/10) ∧
    (31 ≤ s.elapsed + dt → (update W H ρ dt s).spawnInterval = 28/100) := by
  have hsi : (update W H ρ dt s).spawnInterval
      = clamp (9/10 - (s.elapsed + dt) * (2/100)) (28/100) (9/10) := rfl
  refine ⟨hsi, ?_, ?_, ?_⟩
  · intro _
    rw [hsi]
    exact ⟨le_max_left _ _, max_le (by norm_num) (min_le_left _ _)⟩
  · intro h0
    rw [hsi, h0]
    norm_num [clamp]
  · intro h31
    rw [hsi]
    have hv : 9/10 - (s.elapsed + dt) * (2/100) ≤ 28/100 := by linarith
    unfold clamp
    rw [min_eq_right (le_trans hv (by norm_num)), max_eq_left hv]

/-- Witness for C2 at concrete states with new elapsed 0 and 31. -/
theorem C2_spawnInterval_formula_witness :
    28/100 ≤ (update 400 600 sampleRand 0 sampleState).spawnInterval ∧
    (update 400 600 sampleRand 0 sampleState).spawnInterval = 9/10 ∧
    (update 400 600 sampleRand 31 sampleState).spawnInterval = 28/100 :=
  ⟨((C2_spawnInterval_formula 400 600 sampleRand 0 sampleState).2.1
      (by norm_num [sampleState])).1,
   (C2_spawnInterval_formula 400 600 sampleRand 0 sampleState).2.2.1
      (by norm_num [sampleState]),
   (C2_spawnInterval_formula 400 600 sampleRand 31 sampleState).2.2.2
      (by norm_num [sampleState])⟩

/-- C3: if, during an `update(dt)` call, some block entering the for-loop
overlaps the (already moved) player after its own move — the AABB test the
loop actually performs on blocks still on screen — then `running = false`
when the call returns, and the loop does not return early: the surviving
block list is exactly all moved blocks with `y ≤ playfieldHeight`, so every
remaining block advanced by `speed*dt` that frame. -/
theorem C3_collision_ends_run (W H : ℚ) (ρ : RandSrc) (dt : ℚ) (s : GameState)
    (h : ∃ b ∈ blocksEnteringLoop W ρ dt s,
          (moveBlock dt b).y ≤ H ∧
          checkCollision (updatedPlayer W dt s).rect (moveBlock dt b).rect = true) :
    (update W H ρ dt s).running = false ∧
    (update W H ρ dt s).blocks
      = ((blocksEnteringLoop W ρ dt s).map (moveBlock dt)).filter
          (fun b => decide (b.y ≤ H)) := by
  have hb : (update W H ρ dt s).blocks
      = (blockLoop H (updatedPlayer W dt s).rect dt (blocksEnteringLoop W ρ dt s)).1 := rfl
  have hr : (update W H ρ dt s).running
      = (if (blockLoop H (updatedPlayer W dt s).rect dt (blocksEnteringLoop W ρ dt s)).2
          then false else s.running) := rfl
  rw [blockLoop_eq] at hb hr
  refine ⟨?_, hb⟩
  have hany : ((blocksEnteringLoop W ρ dt s).map (moveBlock dt)).any
      (fun b => decide (b.y ≤ H) &&
        checkCollision (updatedPlayer W dt s).rect b.rect) = true := by
    rcases h with ⟨b, hmem, hy, hc⟩
    refine List.any_eq_true.mpr ⟨moveBlock dt b, List.mem_map_of_mem _ hmem, ?_⟩
    simp [hy, hc]
  rw [hr, hany, if_pos rfl]

/-- Witness for C3: a concrete state whose single block overlaps the player. -/
theorem C3_collision_ends_run_witness :
    (update 400 600 sampleRand 0 sampleCollisionState).running = false :=
  (C3_collision_ends_run 400 600 sampleRand 0 sampleCollisionState (by
    refine ⟨sampleBlock, ?_, ?_, ?_⟩
    · have hcond : ¬ (sampleCollisionState.spawnTimer + 0
          ≥ newSpawnInterval 0 sampleCollisionState) := by
        norm_num [sampleCollisionState, sampleState, newSpawnInterval, clamp,
          max_def, min_def]
      have : blocksEnteringLoop 400 sampleRand 0 sampleCollisionState = [sampleBlock] := by
        rw [blocksEnteringLoop, if_neg hcond]
        rfl
      rw [this]
      exact List.mem_singleton.mpr rfl
    · norm_num [moveBlock, sampleBlock]
    · norm_num [checkCollision, moveBlock, sampleBlock, updatedPlayer, clamp,
        sampleCollisionState, sampleState, samplePlayer, Player.rect, Block.rect])).1

/-- C4: with `dt > 0`, every block entering the for-loop strictly increases
its `y` (all fall speeds are positive: the ones already in the collection by
hypothesis, a freshly spawned one because its speed is at least 120), and a
moved block is in the collection after `update` exactly when its new
`y ≤ playfieldHeight` — never removed while `y ≤ playfieldHeight`, never
retained once `y > playfieldHeight`. -/
theorem C4_blocks_advance_and_exit (W H : ℚ) (ρ : RandSrc) (dt : ℚ) (s : GameState)
    (hdt : 0 < dt) (hspd : ∀ b ∈ s.blocks, 0 < b.speed)
    (hel : 0 ≤ s.elapsed) (hr3 : 0 ≤ ρ.r3) :
    (∀ b ∈ blocksEnteringLoop W ρ dt s, b.y < (moveBlock dt b).y) ∧
    (∀ b ∈ (blocksEnteringLoop W ρ dt s).map (moveBlock dt),
      (b ∈ (update W H ρ dt s).blocks ↔ b.y ≤ H)) := by
  have hall : ∀ b ∈ blocksEnteringLoop W ρ dt s, 0 < b.speed := by
    intro b hb
    rw [blocksEnteringLoop] at hb
    by_cases hc : s.spawnTimer + dt ≥ newSpawnInterval dt s
    · rw [if_pos hc] at hb
      rcases List.mem_append.mp hb with hb | hb
      · exact hspd b hb
      · have hbe : b = newBlock W (s.elapsed + dt) ρ := List.mem_singleton.mp hb
        have h20 : 0 ≤ (s.elapsed + dt) * 20 := by positivity
        have h60 : 0 ≤ ρ.r3 * (60 - 0) := by positivity
        rw [hbe]
        show 0 < 120 + (s.elapsed + dt) * 20 + rand ρ.r3 0 60
        rw [rand]
        linarith
    · rw [if_neg hc] at hb
      exact hspd b hb
  constructor
  · intro b hb
    have : 0 < b.speed * dt := mul_pos (hall b hb) hdt
    show b.y < b.y + b.speed * dt
    linarith
  · intro b hb
    have hblocks : (update W H ρ dt s).blocks
        = ((blocksEnteringLoop W ρ dt s).map (moveBlock dt)).filter
            (fun b => decide (b.y ≤ H)) := by
      have : (update W H ρ dt s).blocks
          = (blockLoop H (updatedPlayer W dt s).rect dt (blocksEnteringLoop W ρ dt s)).1 := rfl
      rw [this, blockLoop_eq]
    rw [hblocks]
    constructor
    · intro hmem
      exact of_decide_eq_true (List.mem_filter.mp hmem).2
    · intro hy
      exact List.mem_filter.mpr ⟨hb, decide_eq_true hy⟩

/-- Witness for C4: the sample block advances with `dt = 1/10` and stays in
the collection since its new `y = 510 ≤ 600`. -/
theorem C4_blocks_advance_and_exit_witness :
    sampleBlock.y < (moveBlock (1/10) sampleBlock).y ∧
    (moveBlock (1/10) sampleBlock
        ∈ (update 400 600 sampleRand (1/10) sampleCollisionState).blocks ↔
      (moveBlock (1/10) sampleBlock).y ≤ 600) := by
  have hmem : sampleBlock ∈ blocksEnteringLoop 400 sampleRand (1/10) sampleCollisionState := by
    have hcond : ¬ (sampleCollisionState.spawnTimer + 1/10
        ≥ newSpawnInterval (1/10) sampleCollisionState) := by
      norm_num [sampleCollisionState, sampleState, newSpawnInterval, clamp,
        max_def, min_def]
    have : blocksEnteringLoop 400 sampleRand (1/10) sampleCollisionState = [sampleBlock] := by
      rw [blocksEnteringLoop, if_neg hcond]
      rfl
    rw [this]
    exact List.mem_singleton.mpr rfl
  have h := C4_blocks_advance_and_exit 400 600 sampleRand (1/10) sampleCollisionState
    (by norm_num)
    (by
      intro b hb
      have hbe : b = sampleBlock := List.mem_singleton.mp hb
      rw [hbe]
      norm_num [sampleBlock])
    (by norm_num [sampleCollisionState, sampleState])
    (by norm_num [sampleRand])
  exact ⟨h.1 sampleBlock hmem, h.2 (moveBlock (1/10) sampleBlock)
    (List.mem_map_of_mem _ hmem)⟩

/-- C6: with the four `Math.random()` draws in `[0,1)`, elapsed `≥ 0` and a
playfield at least 70 wide, the spawned block has an integer width `w` with
`30 ≤ w < 70`, height equal to its width, an integer `x` with
`0 ≤ x < playfieldWidth - w`, initial `y = -w`, speed
`120 + elapsed*20 + r` for some `0 ≤ r < 60`, and `spawnBlock` appends it to
the collection (length grows by one, existing blocks unchanged). -/
theorem C6_spawn_properties (W e : ℚ) (ρ : RandSrc) (bs : List Block)
    (hW : 70 ≤ W) (_he : 0 ≤ e)
    (h1 : 0 ≤ ρ.r1) (h1' : ρ.r1 < 1)
    (h2 : 0 ≤ ρ.r2) (h2' : ρ.r2 < 1)
    (h3 : 0 ≤ ρ.r3) (h3' : ρ.r3 < 1) :
    (∃ k : ℤ, (newBlock W e ρ).w = (k : ℚ)) ∧
    30 ≤ (newBlock W e ρ).w ∧ (newBlock W e ρ).w < 70 ∧
    (newBlock W e ρ).h = (newBlock W e ρ).w ∧
    (∃ k : ℤ, (newBlock W e ρ).x = (k : ℚ)) ∧
    0 ≤ (newBlock W e ρ).x ∧ (newBlock W e ρ).x < W - (newBlock W e ρ).w ∧
    (newBlock W e ρ).y = -(newBlock W e ρ).w ∧
    (∃ r : ℚ, 0 ≤ r ∧ r < 60 ∧ (newBlock W e ρ).speed = 120 + e * 20 + r) ∧
    spawnBlock W e ρ bs = bs ++ [newBlock W e ρ] := by
  have hv1 : rand ρ.r1 30 70 = ρ.r1 * 40 + 30 := by
    rw [rand]; ring
  have hv1lo : (30:ℚ) ≤ rand ρ.r1 30 70 := by
    rw [hv1]; nlinarith
  have hv1hi : rand ρ.r1 30 70 < 70 := by
    rw [hv1]; nlinarith
  have hw : (newBlock W e ρ).w = ((⌊rand ρ.r1 30 70⌋ : ℤ) : ℚ) := rfl
  have hwlo : (30:ℚ) ≤ (newBlock W e ρ).w := by
    rw [hw]
    exact_mod_cast Int.le_floor.mpr (by exact_mod_cast hv1lo)
  have hwhi : (newBlock W e ρ).w < 70 := by
    rw [hw]
    calc ((⌊rand ρ.r1 30 70⌋ : ℤ) : ℚ) ≤ rand ρ.r1 30 70 := Int.floor_le _
    _ < 70 := hv1hi
  have hx : (newBlock W e ρ).x
      = ((⌊rand ρ.r2 0 (W - (newBlock W e ρ).w)⌋ : ℤ) : ℚ) := rfl
  have hWw : 0 < W - (newBlock W e ρ).w := by linarith
  have hv2 : rand ρ.r2 0 (W - (newBlock W e ρ).w) = ρ.r2 * (W - (newBlock W e ρ).w) := by
    rw [rand]; ring
  have hv2lo : (0:ℚ) ≤ rand ρ.r2 0 (W - (newBlock W e ρ).w) := by
    rw [hv2]; positivity
  have hv2hi : rand ρ.r2 0 (W - (newBlock W e ρ).w) < W - (newBlock W e ρ).w := by
    rw [hv2]
    exact mul_lt_of_lt_one_left hWw h2'
  refine ⟨⟨⌊rand ρ.r1 30 70⌋, hw⟩, hwlo, hwhi, rfl,
    ⟨⌊rand ρ.r2 0 (W - (newBlock W e ρ).w)⌋, hx⟩, ?_, ?_, rfl,
    ⟨ρ.r3 * 60, by positivity, by linarith, ?_⟩, rfl⟩
  · rw [hx]
    exact_mod_cast Int.le_floor.mpr (by exact_mod_cast hv2lo)
  · rw [hx]
    calc ((⌊rand ρ.r2 0 (W - (newBlock W e ρ).w)⌋ : ℤ) : ℚ)
        ≤ rand ρ.r2 0 (W - (newBlock W e ρ).w) := Int.floor_le _
    _ < W - (newBlock W e ρ).w := hv2hi
  · show 120 + e * 20 + rand ρ.r3 0 60 = 120 + e * 20 + ρ.r3 * 60
    rw [rand]; ring

/-- Witness for C6 with all draws 0, elapsed 0, `W = 400`: width 30, speed
jitter 0, and the block appended to the empty collection. -/
theorem C6_spawn_properties_witness :
    30 ≤ (newBlock 400 0 sampleRand).w ∧
    spawnBlock 400 0 sampleRand [] = [newBlock 400 0 sampleRand] := by
  have h := C6_spawn_properties 400 0 sampleRand []
    (by norm_num) (by norm_num)
    (by norm_num [sampleRand]) (by norm_num [sampleRand])
    (by norm_num [sampleRand]) (by norm_num [sampleRand])
    (by norm_num [sampleRand]) (by norm_num [sampleRand])
  exact ⟨h.2.1, by simpa using h.2.2.2.2.2.2.2.2.2⟩

end DodgeTheBlocks
